import Mathlib

/-!
Verification of the datadog-tour service core: the user/cache data model,
the cache-aside use-case layer (`internal/usecase/user_usecase.go`), the
in-memory semantics of the MySQL user repository
(`internal/infrastructure/database/user_repository.go`) and the Redis cache
repository (`internal/infrastructure/redis/cache_repository.go`), the
tracing decorators (`internal/infrastructure/tracing/*.go`), the request
context carrier (`internal/common/context/context.go`), the HTTP handlers
(`internal/presentation/interface-adapter/handler/user_handler.go`), the
Echo middleware chain (`internal/presentation/router/router.go`) and the
panic-recovery middleware
(`internal/presentation/middleware/echo_recovery.go`).

Go `(value, error)` return pairs are embedded as `Except String value`,
following the convention (obeyed by every implementation in the repository)
that the zero value accompanies a non-nil error.  Machine `int` user ids
are embedded as `Nat` (they originate from an auto-increment column and the
routes only produce non-negative ids).
-/

namespace DatadogTour

/-- Modelled from the spec: the `entities.User` struct (its declaring file is
not part of the extracted sources; the spec gives
`User: {ID: integer, Name: string, Email: string, CreatedAt: timestamp}`).
Timestamps are embedded as `Nat` ticks. -/
structure User where
  id : Nat
  name : String
  email : String
  createdAt : Nat
deriving DecidableEq, Repr

/-- Decimal rendering of a natural number, modelling `fmt.Sprintf("%d", n)`
and `strconv.FormatUint`: the base-10 numeral of `n`. -/
def natDecimal (n : Nat) : String :=
  if n = 0 then "0" else String.mk (((Nat.digits 10 n).map Nat.digitChar).reverse)

/-- The cache key computed by the use case: `fmt.Sprintf("user:%d", id)`
(`user_usecase.go`). -/
def cacheKey (id : Nat) : String :=
  "user:" ++ natDecimal id

/-- Models `json.Marshal` of a `User` (the exact JSON text produced by Go for
the struct's field tags). -/
def serializeUser (u : User) : String :=
  "\x7b\"id\":" ++ natDecimal u.id ++ ",\"name\":\"" ++ u.name ++
    "\",\"email\":\"" ++ u.email ++ "\",\"created_at\":" ++ natDecimal u.createdAt ++ "\x7d"

/-- Numeric value of a decimal digit character, `none` on a non-digit. -/
def digitVal (c : Char) : Option Nat :=
  if c.isDigit then some (c.toNat - 48) else none

/-- Accumulating decimal parser over characters. -/
def parseNatAux : List Char → Nat → Option Nat
  | [], acc => some acc
  | c :: cs, acc =>
    match digitVal c with
    | some d => parseNatAux cs (acc * 10 + d)
    | none => none

/-- Parse a non-empty all-digit character list as a natural number. -/
def parseNatChars (l : List Char) : Option Nat :=
  match l with
  | [] => none
  | _ :: _ => parseNatAux l 0

/-- Models `strconv.Atoi` on the identifiers the routes produce (non-negative
decimal numerals); any other input is a parse error. -/
def atoi (s : String) : Option Nat :=
  parseNatChars s.data

/-- Consume an expected literal from the front of a character list. -/
def dropLit : List Char → List Char → Option (List Char)
  | [], l => some l
  | p :: ps, c :: cs => if c = p then dropLit ps cs else none
  | _ :: _, [] => none

/-- Take characters up to (not including) the first `stop` character,
returning the prefix and the remainder after `stop`. -/
def takeUntil (stop : Char) : List Char → Option (List Char × List Char)
  | [] => none
  | c :: cs =>
    if c = stop then some ([], cs)
    else
      match takeUntil stop cs with
      | some (pre, rest) => some (c :: pre, rest)
      | none => none

/-- Models `json.Unmarshal` of cached bytes into a `User`: accepts exactly
the texts produced by `serializeUser` (up to delimiter-free field contents)
and fails on anything else. -/
def deserializeUser (s : String) : Option User :=
  match dropLit ("\x7b\"id\":".data) s.data with
  | none => none
  | some r1 =>
    match takeUntil ',' r1 with
    | none => none
    | some (idChars, r2) =>
      match parseNatChars idChars with
      | none => none
      | some idv =>
        match dropLit ("\"name\":\"".data) r2 with
        | none => none
        | some r3 =>
          match takeUntil '\"' r3 with
          | none => none
          | some (nameChars, r4) =>
            match dropLit (",\"email\":\"".data) r4 with
            | none => none
            | some r5 =>
              match takeUntil '\"' r5 with
              | none => none
              | some (emailChars, r6) =>
                match dropLit (",\"created_at\":".data) r6 with
                | none => none
                | some r7 =>
                  match takeUntil '\x7d' r7 with
                  | none => none
                  | some (createdChars, r8) =>
                    match parseNatChars createdChars, r8 with
                    | some created, [] =>
                      some ⟨idv, String.mk nameChars, String.mk emailChars, created⟩
                    | _, _ => none

/-- Digit characters determine their digit value (decimal digits only). -/
theorem digitChar_inj_lt10 : ∀ a < 10, ∀ b < 10,
    Nat.digitChar a = Nat.digitChar b → a = b := by decide

/-- Mapping `Nat.digitChar` over lists of decimal digits is injective. -/
theorem map_digitChar_inj : ∀ (l₁ l₂ : List Nat),
    (∀ d ∈ l₁, d < 10) → (∀ d ∈ l₂, d < 10) →
    l₁.map Nat.digitChar = l₂.map Nat.digitChar → l₁ = l₂ := by
  intro l₁
  induction l₁ with
  | nil =>
    intro l₂ _ _ h
    cases l₂ with
    | nil => rfl
    | cons b bs => simp at h
  | cons a as ih =>
    intro l₂ h₁ h₂ h
    cases l₂ with
    | nil => simp at h
    | cons b bs =>
      simp only [List.map_cons, List.cons.injEq] at h
      have ha : a < 10 := h₁ a (List.mem_cons_self a as)
      have hb : b < 10 := h₂ b (List.mem_cons_self b bs)
      have hab : a = b := digitChar_inj_lt10 a ha b hb h.1
      have htl : as = bs := by
        refine ih bs (fun d hd => h₁ d (List.mem_cons_of_mem _ hd))
          (fun d hd => h₂ d (List.mem_cons_of_mem _ hd)) h.2
      rw [hab, htl]

/-- The decimal rendering of a natural number is injective. -/
theorem natDecimal_injective : Function.Injective natDecimal := by
  have digitsOf : ∀ n m : Nat, n ≠ 0 → m ≠ 0 →
      String.mk (((Nat.digits 10 n).map Nat.digitChar).reverse) =
        String.mk (((Nat.digits 10 m).map Nat.digitChar).reverse) → n = m := by
    intro n m _ _ h
    have hdata : ((Nat.digits 10 n).map Nat.digitChar).reverse =
        ((Nat.digits 10 m).map Nat.digitChar).reverse := by
      injection h
    have hmap : (Nat.digits 10 n).map Nat.digitChar =
        (Nat.digits 10 m).map Nat.digitChar :=
      List.reverse_injective hdata
    have : Nat.digits 10 n = Nat.digits 10 m :=
      map_digitChar_inj _ _ (fun d hd => Nat.digits_lt_base (by norm_num) hd)
        (fun d hd => Nat.digits_lt_base (by norm_num) hd) hmap
    exact Nat.digits_inj_iff.mp this
  have nonzeroNeZeroStr : ∀ n : Nat, n ≠ 0 →
      String.mk (((Nat.digits 10 n).map Nat.digitChar).reverse) ≠ "0" := by
    intro n hn h
    have hdata : ((Nat.digits 10 n).map Nat.digitChar).reverse = ['0'] := by
      have := congrArg String.data h
      simpa using this
    have hmap : (Nat.digits 10 n).map Nat.digitChar = ['0'] := by
      have := congrArg List.reverse hdata
      simpa using this
    have hdig : Nat.digits 10 n = [0] := by
      refine map_digitChar_inj _ [0] (fun d hd => Nat.digits_lt_base (by norm_num) hd)
        (by simp) ?_
      simpa [Nat.digitChar] using hmap
    have : n = 0 := by
      have := Nat.ofDigits_digits 10 n
      rw [hdig] at this
      simpa [Nat.ofDigits] using this.symm
    exact hn this
  intro n m h
  unfold natDecimal at h
  by_cases hn : n = 0 <;> by_cases hm : m = 0
  · rw [hn, hm]
  · rw [if_pos hn, if_neg hm] at h
    exact absurd h.symm (nonzeroNeZeroStr m hm)
  · rw [if_neg hn, if_pos hm] at h
    exact absurd h (nonzeroNeZeroStr n hn)
  · rw [if_neg hn, if_neg hm] at h
    exact digitsOf n m hn hm h

/-- The use-case cache key is injective in the user id. -/
theorem cacheKey_injective : Function.Injective cacheKey := by
  intro a b h
  have hdata : ("user:" ++ natDecimal a).data = ("user:" ++ natDecimal b).data := by
    rw [show ("user:" ++ natDecimal a) = cacheKey a from rfl,
      show ("user:" ++ natDecimal b) = cacheKey b from rfl, h]
  rw [String.data_append, String.data_append] at hdata
  have htail : (natDecimal a).data = (natDecimal b).data :=
    List.append_cancel_left hdata
  have hstr : natDecimal a = natDecimal b := by
    cases hA : natDecimal a with
    | mk dataA =>
      cases hB : natDecimal b with
      | mk dataB =>
        rw [hA, hB] at htail
        simp only at htail
        rw [htail]
  exact natDecimal_injective hstr

/-- The `port.UserRepository` capability interface
(`internal/usecase/port/repository.go`), over an explicit repository state
`σ` replacing the Go receiver's hidden backend state.  `create` returns the
user with its assigned id (the Go code assigns `user.ID` through a
pointer). -/
structure UserRepoM (σ : Type) where
  create : σ → User → Except String (User × σ)
  findByID : σ → Nat → Except String User
  findAll : σ → Except String (List User)

/-- The `port.CacheRepository` capability interface
(`internal/usecase/port/repository.go`), over an explicit cache state `κ`. -/
structure CacheRepoM (κ : Type) where
  set : κ → String → String → Except String κ
  get : κ → String → Except String String
  delete : κ → String → Except String κ

/-- The database-fallback tail of `UserUseCase.GetUser`
(`internal/usecase/user_usecase.go`): fetch from the user repository,
wrapping a failure as "user not found: ..."; on success, best-effort
populate the cache (a `Set` failure is logged and discarded). -/
def getUserDb {σ κ : Type} (ur : UserRepoM σ) (cr : CacheRepoM κ) (s : σ) (k : κ)
    (id : Nat) : Except String User × κ :=
  match ur.findByID s id with
  | .error e => (.error ("user not found: " ++ e), k)
  | .ok user =>
    match cr.set k (cacheKey id) (serializeUser user) with
    | .error _ => (.ok user, k)
    | .ok k' => (.ok user, k')

/-- `UserUseCase.GetUser` (`internal/usecase/user_usecase.go`): try the
cache first; on a successful, non-empty, deserializable hit return it,
otherwise fall back to the database tail. -/
def getUser {σ κ : Type} (ur : UserRepoM σ) (cr : CacheRepoM κ) (s : σ) (k : κ)
    (id : Nat) : Except String User × κ :=
  match cr.get k (cacheKey id) with
  | .ok cachedData =>
    if cachedData = "" then getUserDb ur cr s k id
    else
      match deserializeUser cachedData with
      | some user => (.ok user, k)
      | none => getUserDb ur cr s k id
  | .error _ => getUserDb ur cr s k id

/-- `UserUseCase.CreateUser` (`internal/usecase/user_usecase.go`): persist
first (`now` models `time.Now()`), wrapping a failure; then best-effort
cache-populate (a `Set` failure is logged and discarded). -/
def createUser {σ κ : Type} (ur : UserRepoM σ) (cr : CacheRepoM κ) (s : σ) (k : κ)
    (name email : String) (now : Nat) : Except String User × (σ × κ) :=
  let user : User := { id := 0, name := name, email := email, createdAt := now }
  match ur.create s user with
  | .error e => (.error ("failed to create user: " ++ e), (s, k))
  | .ok (u', s') =>
    match cr.set k (cacheKey u'.id) (serializeUser u') with
    | .error _ => (.ok u', (s', k))
    | .ok k' => (.ok u', (s', k'))

/-- `UserUseCase.GetAllUsers` (`internal/usecase/user_usecase.go`). -/
def getAllUsers {σ : Type} (ur : UserRepoM σ) (s : σ) : Except String (List User) :=
  match ur.findAll s with
  | .error e => .error ("failed to get users: " ++ e)
  | .ok users => .ok users

/-- The `users` table behind `database.UserRepository`
(`internal/infrastructure/database/user_repository.go`): the stored rows and
the auto-increment counter. -/
structure DB where
  rows : List User
  nextId : Nat
deriving DecidableEq, Repr

/-- `UserRepository.Create`: `INSERT INTO users ...` followed by
`LastInsertId`, which assigns the auto-increment id to `user.ID`. -/
def dbCreate (db : DB) (u : User) : Except String (User × DB) :=
  let u' := { u with id := db.nextId }
  .ok (u', { rows := db.rows ++ [u'], nextId := db.nextId + 1 })

/-- `UserRepository.FindByID`: `SELECT ... WHERE id = ?`; `sql.ErrNoRows`
becomes the error "user not found". -/
def dbFindByID (db : DB) (id : Nat) : Except String User :=
  match db.rows.find? (fun u => u.id = id) with
  | some u => .ok u
  | none => .error "user not found"

/-- Newest-first ordering on users: row `a` sorts before row `b` when
`b.created_at <= a.created_at` (`ORDER BY created_at DESC`). -/
def createdDesc (a b : User) : Prop := b.createdAt ≤ a.createdAt

instance : DecidableRel createdDesc := fun a b => Nat.decLe b.createdAt a.createdAt

instance : IsTotal User createdDesc :=
  ⟨fun a b =>
    show b.createdAt ≤ a.createdAt ∨ a.createdAt ≤ b.createdAt from
      Nat.le_total b.createdAt a.createdAt⟩

instance : IsTrans User createdDesc :=
  ⟨fun _ _ _ hab hbc => Nat.le_trans hbc hab⟩

/-- `UserRepository.FindAll`:
`SELECT ... ORDER BY created_at DESC LIMIT 100`. -/
def dbFindAll (db : DB) : Except String (List User) :=
  .ok ((List.insertionSort createdDesc db.rows).take 100)

/-- The concrete MySQL-backed user repository. -/
def urDB : UserRepoM DB :=
  { create := dbCreate, findByID := dbFindByID, findAll := dbFindAll }

/-- The Redis key space behind `redis.CacheRepository`
(`internal/infrastructure/redis/cache_repository.go`): an association list
of keys to string values, newest binding first. -/
def Cache : Type := List (String × String)

/-- Look a key up in the cache (`GET`). -/
def lookupCache (c : Cache) (key : String) : Option String :=
  (c.find? (fun p => p.1 = key)).map (·.2)

/-- Bind a key in the cache (`SET`, overwriting by shadowing). -/
def insertCache (c : Cache) (key v : String) : Cache :=
  (key, v) :: c

/-- Remove a key from the cache (`DEL`, and also TTL expiry). -/
def eraseCache (c : Cache) (key : String) : Cache :=
  c.filter (fun p => decide (p.1 ≠ key))

/-- The concrete Redis-backed cache repository: `Get` fails with
"key not found" on a miss. -/
def crOk : CacheRepoM Cache :=
  { set := fun c key v => .ok (insertCache c key v)
    get := fun c key =>
      match lookupCache c key with
      | some v => .ok v
      | none => .error "key not found"
    delete := fun c key => .ok (eraseCache c key) }

/-- The cache repository when the Redis backend is unreachable: every
operation fails and the key space is unchanged
(`redis.CacheRepository` wraps the client error). -/
def crFail : CacheRepoM Cache :=
  { set := fun _ _ _ => .error "failed to set cache"
    get := fun _ _ => .error "failed to get cache"
    delete := fun _ _ => .error "failed to delete cache" }

/-- The healthy or unreachable cache backend, chosen per step. -/
def cacheImpl (fail : Bool) : CacheRepoM Cache :=
  if fail then crFail else crOk

/-- The healthy cache repository instrumented with a `Set`-call counter, to
observe whether the use case ever invokes `CacheRepository.Set`. -/
def crCount : CacheRepoM (Cache × Nat) :=
  { set := fun ck key v => .ok (insertCache ck.1 key v, ck.2 + 1)
    get := fun ck key =>
      match lookupCache ck.1 key with
      | some v => .ok v
      | none => .error "key not found"
    delete := fun ck key => .ok (eraseCache ck.1 key, ck.2) }

/-- The empty system: no rows, auto-increment at 1, empty cache. -/
def initState : DB × Cache := ({ rows := [], nextId := 1 }, [])

/-- States of the store/cache pair reachable by the service's own
operations: user creation and user reads (each with a healthy or failing
cache backend) and cache-entry expiry. -/
inductive Reachable : DB × Cache → Prop where
  | init : Reachable initState
  | stepCreate (db : DB) (c : Cache) (name email : String) (now : Nat) (fail : Bool) :
      Reachable (db, c) →
      Reachable (createUser urDB (cacheImpl fail) db c name email now).2
  | stepGet (db : DB) (c : Cache) (id : Nat) (fail : Bool) :
      Reachable (db, c) →
      Reachable (db, (getUser urDB (cacheImpl fail) db c id).2)
  | stepExpire (db : DB) (c : Cache) (key : String) :
      Reachable (db, c) → Reachable (db, eraseCache c key)

/-- Coherence between cache and store: every cache binding under a user key
belongs to an id that is present in the store. -/
def CacheCoherent (db : DB) (c : Cache) : Prop :=
  ∀ id v, lookupCache c (cacheKey id) = some v → ∃ u ∈ db.rows, u.id = id

theorem lookupCache_insert (c : Cache) (key v q : String) :
    lookupCache (insertCache c key v) q = if key = q then some v else lookupCache c q := by
  by_cases h : key = q
  · simp [lookupCache, insertCache, List.find?, h]
  · simp [lookupCache, insertCache, List.find?, h]

theorem lookupCache_erase_self (c : Cache) (key : String) :
    lookupCache (eraseCache c key) key = none := by
  unfold lookupCache
  have hfind : List.find? (fun p => decide (p.1 = key)) (eraseCache c key) = none := by
    rw [List.find?_eq_none]
    intro p hp
    have hne : p.1 ≠ key := by
      have := List.of_mem_filter hp
      simpa using this
    simpa using hne
  rw [hfind]
  rfl

theorem lookupCache_erase_ne (c : Cache) (key q : String) (h : q ≠ key) :
    lookupCache (eraseCache c key) q = lookupCache c q := by
  unfold lookupCache eraseCache
  induction c with
  | nil => rfl
  | cons p ps ih =>
    by_cases hp : p.1 = key
    · rw [List.filter_cons_of_neg (by simp [hp])]
      rw [ih]
      have hpq : ¬(p.1 = q) := by
        rw [hp]
        exact fun hk => h hk.symm
      simp [List.find?, hpq]
    · rw [List.filter_cons_of_pos (by simp [hp])]
      by_cases hq : p.1 = q
      · simp [List.find?, hq]
      · have hd : (decide (p.1 = q)) = false := decide_eq_false hq
        simp only [List.find?, hd]
        exact ih

theorem dbFindByID_ok_mem {db : DB} {id : Nat} {u : User}
    (h : dbFindByID db id = .ok u) : u ∈ db.rows ∧ u.id = id := by
  unfold dbFindByID at h
  cases hf : db.rows.find? (fun w => decide (w.id = id)) with
  | none => rw [hf] at h; cases h
  | some w =>
    rw [hf] at h
    have hw : w = u := by injection h
    subst hw
    have hp := List.find?_some hf
    simp only [decide_eq_true_eq] at hp
    exact ⟨List.mem_of_find?_eq_some hf, hp⟩

theorem dbFindByID_absent {db : DB} {id : Nat}
    (h : ∀ u ∈ db.rows, u.id ≠ id) : dbFindByID db id = .error "user not found" := by
  unfold dbFindByID
  rw [List.find?_eq_none.mpr]
  intro u hu
  simpa using h u hu

theorem coherent_append (db : DB) (c : Cache) (u' : User)
    (h : CacheCoherent db c) :
    CacheCoherent { rows := db.rows ++ [u'], nextId := db.nextId + 1 } c := by
  intro id v hv
  obtain ⟨u, hu, hid⟩ := h id v hv
  exact ⟨u, List.mem_append_left _ hu, hid⟩

theorem coherent_insert (db : DB) (c : Cache) (id0 : Nat) (v0 : String)
    (h : CacheCoherent db c) (hmem : ∃ u ∈ db.rows, u.id = id0) :
    CacheCoherent db (insertCache c (cacheKey id0) v0) := by
  intro id v hv
  rw [lookupCache_insert] at hv
  by_cases hk : cacheKey id0 = cacheKey id
  · have : id0 = id := cacheKey_injective hk
    subst this
    exact hmem
  · rw [if_neg hk] at hv
    exact h id v hv

theorem coherent_createUser (db : DB) (c : Cache) (name email : String) (now : Nat)
    (fail : Bool) (h : CacheCoherent db c) :
    CacheCoherent (createUser urDB (cacheImpl fail) db c name email now).2.1
      (createUser urDB (cacheImpl fail) db c name email now).2.2 := by
  cases fail with
  | true =>
    simp only [createUser, cacheImpl, urDB, dbCreate, crFail, if_true]
    exact coherent_append db c _ h
  | false =>
    simp only [createUser, cacheImpl, urDB, dbCreate, crOk, Bool.false_eq_true, if_false]
    refine coherent_insert _ c _ _ (coherent_append db c _ h) ?_
    refine ⟨_, List.mem_append_right _ (List.mem_singleton_self _), rfl⟩

theorem coherent_getUserDb (db : DB) (c : Cache) (id : Nat) (cr : CacheRepoM Cache)
    (h : CacheCoherent db c)
    (hset : ∀ key v, cr.set c key v = .error "failed to set cache" ∨
      cr.set c key v = .ok (insertCache c key v)) :
    CacheCoherent db (getUserDb urDB cr db c id).2 := by
  cases hf : urDB.findByID db id with
  | error e =>
    simp only [getUserDb, hf]
    exact h
  | ok u =>
    rcases hset (cacheKey id) (serializeUser u) with hs | hs
    · simp only [getUserDb, hf, hs]
      exact h
    · simp only [getUserDb, hf, hs]
      have hmem := dbFindByID_ok_mem hf
      exact coherent_insert db c id _ h ⟨u, hmem.1, hmem.2⟩

theorem coherent_getUser (db : DB) (c : Cache) (id : Nat) (fail : Bool)
    (h : CacheCoherent db c) :
    CacheCoherent db (getUser urDB (cacheImpl fail) db c id).2 := by
  have hset : ∀ key v, (cacheImpl fail).set c key v = .error "failed to set cache" ∨
      (cacheImpl fail).set c key v = .ok (insertCache c key v) := by
    intro key v
    cases fail with
    | true => exact Or.inl rfl
    | false => exact Or.inr rfl
  cases hg : (cacheImpl fail).get c (cacheKey id) with
  | error e =>
    simp only [getUser, hg]
    exact coherent_getUserDb db c id _ h hset
  | ok cached =>
    by_cases hc : cached = ""
    · simp only [getUser, hg, if_pos hc]
      exact coherent_getUserDb db c id _ h hset
    · cases hd : deserializeUser cached with
      | some u =>
        simp only [getUser, hg, if_neg hc, hd]
        exact h
      | none =>
        simp only [getUser, hg, if_neg hc, hd]
        exact coherent_getUserDb db c id _ h hset

theorem coherent_erase (db : DB) (c : Cache) (key : String)
    (h : CacheCoherent db c) : CacheCoherent db (eraseCache c key) := by
  intro id v hv
  by_cases hk : cacheKey id = key
  · rw [hk] at hv
    rw [lookupCache_erase_self] at hv
    cases hv
  · rw [lookupCache_erase_ne c key _ hk] at hv
    exact h id v hv

/-- Every state reachable by the service's own operations is cache-coherent:
cached user entries only exist for ids present in the store. -/
theorem reachable_coherent : ∀ p : DB × Cache, Reachable p → CacheCoherent p.1 p.2 := by
  intro p h
  induction h with
  | init =>
    intro id v hv
    simp [initState, lookupCache, List.find?] at hv
  | stepCreate db c name email now fail _ ih =>
    exact coherent_createUser db c name email now fail ih
  | stepGet db c id fail _ ih =>
    exact coherent_getUser db c id fail ih
  | stepExpire db c key _ ih =>
    exact coherent_erase db c key ih

/-- C7: for every id not present in the store, in any state the service can
reach, `GetUser` returns a not-found error, never calls
`CacheRepository.Set`, and leaves the cache unchanged (run against the
set-counting cache repository: the counter stays 0 and the key space is
untouched). -/
theorem getUser_absent_not_found_cache_untouched
    (db : DB) (c : Cache) (id : Nat)
    (hr : Reachable (db, c))
    (habs : ∀ u ∈ db.rows, u.id ≠ id) :
    getUser urDB crCount db (c, 0) id =
      (.error ("user not found: " ++ "user not found"), (c, 0)) := by
  have hco := reachable_coherent _ hr
  have hlook : lookupCache c (cacheKey id) = none := by
    cases hl : lookupCache c (cacheKey id) with
    | none => rfl
    | some v =>
      obtain ⟨u, hu, hid⟩ := hco id v hl
      exact absurd hid (habs u hu)
  have hfind : dbFindByID db id = .error "user not found" := dbFindByID_absent habs
  unfold getUser
  show (match crCount.get (c, 0) (cacheKey id) with
    | .ok cachedData => _
    | .error _ => getUserDb urDB crCount db (c, 0) id) = _
  have hget : crCount.get (c, 0) (cacheKey id) = .error "key not found" := by
    simp only [crCount, hlook]
  rw [hget]
  unfold getUserDb
  show (match urDB.findByID db id with
    | .error e => (Except.error ("user not found: " ++ e), (c, 0))
    | .ok user => _) = _
  have : urDB.findByID db id = .error "user not found" := hfind
  rw [this]

/-- C7 witness: in the initial (empty) state, `GetUser 5` fails with the
wrapped not-found error, performs no `Set` call, and leaves the cache
empty. -/
theorem getUser_absent_not_found_cache_untouched_witness :
    Reachable initState ∧ (∀ u ∈ (initState.1).rows, u.id ≠ 5) ∧
      getUser urDB crCount initState.1 (initState.2, 0) 5 =
        (.error ("user not found: " ++ "user not found"), (initState.2, 0)) :=
  ⟨Reachable.init, (by intro u hu; cases hu),
    getUser_absent_not_found_cache_untouched initState.1 initState.2 5 Reachable.init
      (by intro u hu; cases hu)⟩

/-- C5: a cache `Set` failure after a successful store operation never fails
the use case — the database tail of `GetUser` still returns the user fetched
from the store, and `CreateUser` still returns the created user. -/
theorem cacheSetFailure_does_not_fail_usecase
    {σ κ : Type} (ur : UserRepoM σ) (cr : CacheRepoM κ) (s s' : σ) (k : κ)
    (id : Nat) (u u' : User) (name email : String) (now : Nat) (e₁ e₂ : String)
    (hfind : ur.findByID s id = .ok u)
    (hset₁ : cr.set k (cacheKey id) (serializeUser u) = .error e₁)
    (hcreate : ur.create s { id := 0, name := name, email := email, createdAt := now } =
      .ok (u', s'))
    (hset₂ : cr.set k (cacheKey u'.id) (serializeUser u') = .error e₂) :
    getUserDb ur cr s k id = (.ok u, k) ∧
      createUser ur cr s k name email now = (.ok u', (s', k)) := by
  constructor
  · simp only [getUserDb, hfind, hset₁]
  · simp only [createUser, hcreate, hset₂]

/-- A store with one user, used to exercise the cache-failure paths. -/
def oneUserRepo : UserRepoM Unit :=
  { create := fun _ u => .ok ({ u with id := 1 }, ())
    findByID := fun _ id => .ok { id := id, name := "Alice", email := "a@example.com", createdAt := 7 }
    findAll := fun _ => .ok [] }

/-- C5 witness: with a store that succeeds and a cache whose `Set` always
fails, `GetUser`'s database tail and `CreateUser` both succeed. -/
theorem cacheSetFailure_does_not_fail_usecase_witness :
    oneUserRepo.findByID () 5 =
        .ok { id := 5, name := "Alice", email := "a@example.com", createdAt := 7 } ∧
      getUserDb oneUserRepo crFail () [] 5 =
        (.ok { id := 5, name := "Alice", email := "a@example.com", createdAt := 7 }, []) ∧
      createUser oneUserRepo crFail () [] "Bob" "b@example.com" 9 =
        (.ok { id := 1, name := "Bob", email := "b@example.com", createdAt := 9 }, ((), [])) :=
  ⟨rfl,
    (cacheSetFailure_does_not_fail_usecase oneUserRepo crFail () () []
      5 { id := 5, name := "Alice", email := "a@example.com", createdAt := 7 }
      { id := 1, name := "Bob", email := "b@example.com", createdAt := 9 }
      "Bob" "b@example.com" 9 "failed to set cache" "failed to set cache"
      rfl rfl rfl rfl).1,
    (cacheSetFailure_does_not_fail_usecase oneUserRepo crFail () () []
      5 { id := 5, name := "Alice", email := "a@example.com", createdAt := 7 }
      { id := 1, name := "Bob", email := "b@example.com", createdAt := 9 }
      "Bob" "b@example.com" 9 "failed to set cache" "failed to set cache"
      rfl rfl rfl rfl).2⟩

/-- C6: a successful cache `Get` whose non-empty payload fails to
deserialize is treated as a miss — `GetUser` proceeds exactly as its
database tail, instead of surfacing a deserialization error. -/
theorem deserializeFailure_is_cache_miss
    {σ κ : Type} (ur : UserRepoM σ) (cr : CacheRepoM κ) (s : σ) (k : κ)
    (id : Nat) (v : String)
    (hget : cr.get k (cacheKey id) = .ok v)
    (hne : v ≠ "")
    (hbad : deserializeUser v = none) :
    getUser ur cr s k id = getUserDb ur cr s k id := by
  simp only [getUser, hget, if_neg hne, hbad]

/-- A cache whose `Get` always returns the fixed payload `v`. -/
def constCache (v : String) : CacheRepoM Unit :=
  { set := fun _ _ _ => .ok ()
    get := fun _ _ => .ok v
    delete := fun _ _ => .ok () }

/-- C6 witness: a cached payload of "garbage" fails to deserialize, and
`GetUser` falls through to the store. -/
theorem deserializeFailure_is_cache_miss_witness :
    (constCache "garbage").get () (cacheKey 5) = .ok "garbage" ∧
      ("garbage" : String) ≠ "" ∧ deserializeUser "garbage" = none ∧
      getUser oneUserRepo (constCache "garbage") () () 5 =
        getUserDb oneUserRepo (constCache "garbage") () () 5 :=
  ⟨rfl, by decide, by decide,
    deserializeFailure_is_cache_miss oneUserRepo (constCache "garbage") () () 5 "garbage"
      rfl (by decide) (by decide)⟩

/-- C10: a successful cache `Get` that returns the empty string is treated
as a miss — `GetUser` proceeds exactly as its database tail, so an empty
string is never served from the cache. -/
theorem emptyCachedValue_is_cache_miss
    {σ κ : Type} (ur : UserRepoM σ) (cr : CacheRepoM κ) (s : σ) (k : κ) (id : Nat)
    (hget : cr.get k (cacheKey id) = .ok "") :
    getUser ur cr s k id = getUserDb ur cr s k id := by
  simp only [getUser, hget, if_true, eq_self_iff_true]

/-- C10 witness: with a cache returning the empty string, `GetUser 5` falls
through to the store. -/
theorem emptyCachedValue_is_cache_miss_witness :
    (constCache "").get () (cacheKey 5) = .ok "" ∧
      getUser oneUserRepo (constCache "") () () 5 =
        getUserDb oneUserRepo (constCache "") () () 5 :=
  ⟨rfl, emptyCachedValue_is_cache_miss oneUserRepo (constCache "") () () 5 rfl⟩

/-- The `context.RepoLocator` aggregate
(`internal/common/context/context.go`): references to the two repository
ports. -/
structure RepoLocator (σ κ : Type) where
  userRepo : UserRepoM σ
  cacheRepo : CacheRepoM κ

/-- A value stored in the request context under one of the three context
keys (`internal/common/context/context.go`).  The logger is embedded as an
opaque tag. -/
inductive CtxEntry (σ κ : Type) where
  | loggerE (lg : Nat)
  | locatorE (loc : RepoLocator σ κ)
  | interactorE

/-- The request-scoped context carrier: a `context.WithValue` chain, newest
binding first. -/
def Ctx (σ κ : Type) : Type := List (String × CtxEntry σ κ)

/-- `ctx.Value(key)`: the newest binding for `key`, if any. -/
def ctxValue {σ κ : Type} (ctx : Ctx σ κ) (key : String) : Option (CtxEntry σ κ) :=
  (ctx.find? (fun p => p.1 = key)).map (·.2)

/-- `context.SetRepoLocator`. -/
def setRepoLocator {σ κ : Type} (ctx : Ctx σ κ) (loc : RepoLocator σ κ) : Ctx σ κ :=
  ("repo_locator", .locatorE loc) :: ctx

/-- `context.SetLogger`. -/
def setLogger {σ κ : Type} (ctx : Ctx σ κ) (lg : Nat) : Ctx σ κ :=
  ("logger", .loggerE lg) :: ctx

/-- `context.GetRepoLocator`: the stored locator when the binding exists and
has the right type, and `nil` (here `none`) otherwise — there is no safe
fallback. -/
def getRepoLocator {σ κ : Type} (ctx : Ctx σ κ) : Option (RepoLocator σ κ) :=
  match ctxValue ctx "repo_locator" with
  | some (.locatorE loc) => some loc
  | _ => none

/-- `context.GetLogger`: the stored logger when present, and a fresh
fallback logger (tag 0) otherwise. -/
def getLogger {σ κ : Type} (ctx : Ctx σ κ) : Nat :=
  match ctxValue ctx "logger" with
  | some (.loggerE lg) => lg
  | _ => 0

/-- An extension member of a ProblemDetail (`Extra` map values are strings
or integers in the handlers). -/
inductive ExtraV where
  | strE (v : String)
  | natE (v : Nat)
deriving DecidableEq, Repr

/-- The RFC 9457 error body of
`internal/presentation/interface-adapter/response` (`ProblemDetail`).  The
Go field `Instance` is spelled `instanceVal` because `instance` is reserved
in Lean; `TraceID`/`SpanID` are filled only by `RespondProblemWithTrace`,
which the interface-adapter handlers do not call, so they are omitted
here. -/
structure ProblemDetail where
  type : String
  title : String
  status : Nat
  detail : String
  instanceVal : String
  notify : Option Bool
  extra : List (String × ExtraV)
deriving DecidableEq, Repr

/-- `response.ErrorTypeValidation`. -/
def errorTypeValidation : String := "https://datadog-tour.example.com/errors/validation"

/-- `response.ErrorTypeNotFound`. -/
def errorTypeNotFound : String := "https://datadog-tour.example.com/errors/not-found"

/-- `response.ErrorTypeInternal`. -/
def errorTypeInternal : String := "https://datadog-tour.example.com/errors/internal"

/-- `response.NewValidationErrorProblem`: 400, never alerting. -/
def newValidationErrorProblem (detail inst : String) : ProblemDetail :=
  { type := errorTypeValidation, title := "Validation Error", status := 400
    detail := detail, instanceVal := inst, notify := some false, extra := [] }

/-- `response.NewNotFoundProblem`: 404, never alerting. -/
def newNotFoundProblem (detail inst : String) : ProblemDetail :=
  { type := errorTypeNotFound, title := "Not Found", status := 404
    detail := detail, instanceVal := inst, notify := some false, extra := [] }

/-- `response.NewInternalErrorProblem`: 500, alerting as requested. -/
def newInternalErrorProblem (detail inst : String) (notify : Bool) : ProblemDetail :=
  { type := errorTypeInternal, title := "Internal Server Error", status := 500
    detail := detail, instanceVal := inst, notify := some notify, extra := [] }

/-- The body of an HTTP handler response. -/
inductive RespBody where
  | dataUser (u : User)
  | dataUsers (l : List User)
  | problemB (p : ProblemDetail)
deriving DecidableEq, Repr

/-- The observable outcome of running a handler: a JSON response, or an
unrecovered runtime panic escaping the handler. -/
inductive HOutcome where
  | json (status : Nat) (body : RespBody)
  | panicked (msg : String)
deriving DecidableEq, Repr

/-- The Go runtime's panic value for dereferencing a nil pointer. -/
def nilDerefMsg : String := "runtime error: invalid memory address or nil pointer dereference"

/-- The request body of `POST /api/users` (`CreateUserRequest`); `none`
models a body that fails `c.Bind`. -/
structure CreateUserRequest where
  name : String
  email : String
deriving DecidableEq, Repr

/-- `UserHandler.GetUser`
(`internal/presentation/interface-adapter/handler/user_handler.go`): the
repository locator is read from the context and dereferenced without a nil
check, then the id is parsed, the use case runs, and a use-case error is
mapped to a 404 not-found ProblemDetail. -/
def handlerGetUser {σ κ : Type} (ctx : Ctx σ κ) (s : σ) (k : κ)
    (path idStr : String) : HOutcome × κ :=
  match getRepoLocator ctx with
  | none => (.panicked nilDerefMsg, k)
  | some loc =>
    match atoi idStr with
    | none =>
      (.json 400 (.problemB
        { newValidationErrorProblem "User ID must be a valid integer" path with
            extra := [("provided_id", .strE idStr)] }), k)
    | some id =>
      match getUser loc.userRepo loc.cacheRepo s k id with
      | (.error _, k') =>
        (.json 404 (.problemB
          { newNotFoundProblem "User with the specified ID does not exist" path with
              extra := [("user.id", .natE id)] }), k')
      | (.ok user, k') => (.json 200 (.dataUser user), k')

/-- `UserHandler.CreateUser`: locator dereference (no nil check), request
bind, use case, and error mapping to a 500 internal ProblemDetail with
`notify=true`. -/
def handlerCreateUser {σ κ : Type} (ctx : Ctx σ κ) (s : σ) (k : κ)
    (req : Option CreateUserRequest) (now : Nat) (path : String) :
    HOutcome × (σ × κ) :=
  match getRepoLocator ctx with
  | none => (.panicked nilDerefMsg, (s, k))
  | some loc =>
    match req with
    | none =>
      (.json 400 (.problemB
        { newValidationErrorProblem
            "Request body is not valid JSON or does not match expected schema" path with
            extra := [("parse_error", .strE "bind error")] }), (s, k))
    | some r =>
      match createUser loc.userRepo loc.cacheRepo s k r.name r.email now with
      | (.error e, sk) =>
        (.json 500 (.problemB
          { newInternalErrorProblem "Failed to create user due to internal error" path true with
              extra := [("user.email", .strE r.email), ("error", .strE e)] }), sk)
      | (.ok user, sk) => (.json 201 (.dataUser user), sk)

/-- `UserHandler.GetAllUsers`: locator dereference (no nil check), use case,
and error mapping to a 500 internal ProblemDetail. -/
def handlerGetAllUsers {σ κ : Type} (ctx : Ctx σ κ) (s : σ) (k : κ)
    (path : String) : HOutcome × κ :=
  match getRepoLocator ctx with
  | none => (.panicked nilDerefMsg, k)
  | some loc =>
    match getAllUsers loc.userRepo s with
    | .error e =>
      (.json 500 (.problemB
        { newInternalErrorProblem "Failed to retrieve users from database" path true with
            extra := [("error", .strE e)] }), k)
    | .ok users => (.json 200 (.dataUsers users), k)

theorem getRepoLocator_set {σ κ : Type} (ctx : Ctx σ κ) (loc : RepoLocator σ κ) :
    getRepoLocator (setRepoLocator ctx loc) = some loc := by
  simp [getRepoLocator, setRepoLocator, ctxValue, List.find?]

/-- The production locator: MySQL-backed users, Redis-backed cache. -/
def stdLocator : RepoLocator DB Cache := { userRepo := urDB, cacheRepo := crOk }

/-- A request context as produced by the locator middleware. -/
def stdCtx : Ctx DB Cache := setRepoLocator [] stdLocator

/-- C9: when no repository locator was injected into the request context,
`GetRepoLocator` returns `nil`, and all three user handlers dereference it
without a nil check, so each run ends in a nil-pointer panic instead of a
returned error. -/
theorem missing_locator_causes_handler_panic {σ κ : Type} (ctx : Ctx σ κ)
    (s : σ) (k : κ) (req : Option CreateUserRequest) (now : Nat)
    (path idStr : String)
    (hno : ctxValue ctx "repo_locator" = none) :
    getRepoLocator ctx = none ∧
      (handlerCreateUser ctx s k req now path).1 = .panicked nilDerefMsg ∧
      (handlerGetUser ctx s k path idStr).1 = .panicked nilDerefMsg ∧
      (handlerGetAllUsers ctx s k path).1 = .panicked nilDerefMsg := by
  have hloc : getRepoLocator ctx = none := by
    simp only [getRepoLocator, hno]
  refine ⟨hloc, ?_, ?_, ?_⟩
  · simp only [handlerCreateUser, hloc]
  · simp only [handlerGetUser, hloc]
  · simp only [handlerGetAllUsers, hloc]

/-- C9 witness: in an empty request context (production store and cache
types), `GetRepoLocator` is `nil` and each handler panics. -/
theorem missing_locator_causes_handler_panic_witness :
    ctxValue ([] : Ctx DB Cache) "repo_locator" = none ∧
      (getRepoLocator ([] : Ctx DB Cache) = none ∧
        (handlerCreateUser ([] : Ctx DB Cache) initState.1 initState.2 none 0
          "/api/users").1 = .panicked nilDerefMsg ∧
        (handlerGetUser ([] : Ctx DB Cache) initState.1 initState.2 "/api/users/1"
          "1").1 = .panicked nilDerefMsg ∧
        (handlerGetAllUsers ([] : Ctx DB Cache) initState.1 initState.2
          "/api/users").1 = .panicked nilDerefMsg) :=
  ⟨rfl, missing_locator_causes_handler_panic [] initState.1 initState.2 none 0
    "/api/users" "1" rfl⟩

/-- C3: in any reachable state, `GET /api/users/{id}` for an id absent from
the store yields a 404 response whose body is a ProblemDetail with a type
URI ending in "/not-found" and `notify=false`. -/
theorem handlerGetUser_absent_404 (db : DB) (c : Cache) (path idStr : String)
    (id : Nat) (hr : Reachable (db, c)) (hid : atoi idStr = some id)
    (habs : ∀ u ∈ db.rows, u.id ≠ id) :
    ∃ p : ProblemDetail,
      handlerGetUser stdCtx db c path idStr = (.json 404 (.problemB p), c) ∧
      p.status = 404 ∧ (∃ pre, p.type = pre ++ "/not-found") ∧
      p.notify = some false := by
  have hco := reachable_coherent _ hr
  have hlook : lookupCache c (cacheKey id) = none := by
    cases hl : lookupCache c (cacheKey id) with
    | none => rfl
    | some v =>
      obtain ⟨u, hu, huid⟩ := hco id v hl
      exact absurd huid (habs u hu)
  have hget : crOk.get c (cacheKey id) = .error "key not found" := by
    simp only [crOk, hlook]
  have hfind : dbFindByID db id = .error "user not found" := dbFindByID_absent habs
  have hrun : getUser urDB crOk db c id =
      (.error ("user not found: " ++ "user not found"), c) := by
    simp only [getUser, hget, getUserDb]
    show (match urDB.findByID db id with
      | .error e => (Except.error ("user not found: " ++ e), c)
      | .ok user => _) = _
    rw [show urDB.findByID db id = .error "user not found" from hfind]
  refine ⟨{ newNotFoundProblem "User with the specified ID does not exist" path with
    extra := [("user.id", .natE id)] }, ?_, rfl, ⟨"https://datadog-tour.example.com/errors", rfl⟩, rfl⟩
  have hrun' : getUser stdLocator.userRepo stdLocator.cacheRepo db c id =
      (.error ("user not found: " ++ "user not found"), c) := hrun
  simp only [handlerGetUser, stdCtx, getRepoLocator_set, hid, hrun']

/-- C3 witness: `GET /api/users/999999` against the initial (empty) state
returns the 404 not-found ProblemDetail with `notify=false`. -/
theorem handlerGetUser_absent_404_witness :
    Reachable initState ∧ atoi "999999" = some 999999 ∧
      (∀ u ∈ (initState.1).rows, u.id ≠ 999999) ∧
      (∃ p : ProblemDetail,
        handlerGetUser stdCtx initState.1 initState.2 "/api/users/999999" "999999" =
          (.json 404 (.problemB p), initState.2) ∧
        p.status = 404 ∧ (∃ pre, p.type = pre ++ "/not-found") ∧
        p.notify = some false) :=
  ⟨Reachable.init, by decide, (by intro u hu; cases hu),
    handlerGetUser_absent_404 initState.1 initState.2 "/api/users/999999" "999999"
      999999 Reachable.init (by decide) (by intro u hu; cases hu)⟩

/-- C8: `FindAll` returns, for every state of the store, at most 100 users
(exactly `min 100 rows` of them — the fixed `LIMIT 100`), ordered by
creation time descending. -/
theorem dbFindAll_capped_sorted (db : DB) :
    ∃ l : List User, dbFindAll db = .ok l ∧
      l.length = min 100 db.rows.length ∧ l.length ≤ 100 ∧
      List.Sorted createdDesc l := by
  refine ⟨(List.insertionSort createdDesc db.rows).take 100, rfl, ?_, ?_, ?_⟩
  · rw [List.length_take, (List.perm_insertionSort createdDesc db.rows).length_eq]
  · rw [List.length_take]
    exact min_le_left _ _
  · exact List.Pairwise.sublist (List.take_sublist 100 _)
      (List.sorted_insertionSort createdDesc db.rows)

/-- An observable tracing event emitted by a decorator
(`dd-trace-go` span operations: span start, string/bool/integer tags, span
finish). -/
inductive SpanEvent where
  | startSp (name : String)
  | tagS (key val : String)
  | tagB (key : String) (val : Bool)
  | tagN (key : String) (val : Nat)
  | finishSp
deriving DecidableEq, Repr

/-- `UserRepositoryTracer.Create`
(`internal/infrastructure/tracing/user_repository.go`): span plus
delegation; the delegate's result is returned as-is. -/
def tracedCreate {σ : Type} (ur : UserRepoM σ) (s : σ) (u : User) :
    Except String (User × σ) × List SpanEvent :=
  let pre := [SpanEvent.startSp "mysql.create_user", .tagS "db.type" "mysql",
    .tagS "db.operation" "INSERT", .tagS "user.name" u.name, .tagS "user.email" u.email]
  match ur.create s u with
  | .error e =>
    (.error e, pre ++ [.tagB "error" true, .tagS "error.msg" e,
      .tagB "query.success" false, .finishSp])
  | .ok (u', s') =>
    (.ok (u', s'), pre ++ [.tagN "user.id" u'.id, .tagB "query.success" true, .finishSp])

/-- `UserRepositoryTracer.FindByID`. -/
def tracedFindByID {σ : Type} (ur : UserRepoM σ) (s : σ) (id : Nat) :
    Except String User × List SpanEvent :=
  let pre := [SpanEvent.startSp "mysql.find_user_by_id", .tagS "db.type" "mysql",
    .tagS "db.operation" "SELECT", .tagN "user.id" id]
  match ur.findByID s id with
  | .error e =>
    (.error e, pre ++ [.tagB "error" true, .tagS "error.msg" e,
      .tagB "query.success" false, .finishSp])
  | .ok u =>
    (.ok u, pre ++ [.tagS "user.name" u.name, .tagS "user.email" u.email,
      .tagB "query.success" true, .finishSp])

/-- `UserRepositoryTracer.FindAll`. -/
def tracedFindAll {σ : Type} (ur : UserRepoM σ) (s : σ) :
    Except String (List User) × List SpanEvent :=
  let pre := [SpanEvent.startSp "mysql.find_all_users", .tagS "db.type" "mysql",
    .tagS "db.operation" "SELECT"]
  match ur.findAll s with
  | .error e =>
    (.error e, pre ++ [.tagB "error" true, .tagS "error.msg" e,
      .tagB "query.success" false, .finishSp])
  | .ok users =>
    (.ok users, pre ++ [.tagN "users.count" users.length,
      .tagB "query.success" true, .finishSp])

/-- `CacheRepositoryTracer.Set`
(`internal/infrastructure/tracing/cache_repository.go`); `ttl` models the
decorator's configured TTL tag. -/
def tracedSet {κ : Type} (cr : CacheRepoM κ) (k : κ) (key v : String) (ttl : Nat) :
    Except String κ × List SpanEvent :=
  let pre := [SpanEvent.startSp "redis.set", .tagS "db.type" "redis",
    .tagS "db.operation" "SET", .tagS "cache.key" key, .tagN "cache.ttl" ttl]
  match cr.set k key v with
  | .error e =>
    (.error e, pre ++ [.tagB "error" true, .tagS "error.msg" e,
      .tagB "cache.success" false, .finishSp])
  | .ok k' => (.ok k', pre ++ [.tagB "cache.success" true, .finishSp])

/-- `CacheRepositoryTracer.Get`: a miss is tagged, not an error, and the
delegate's error is propagated unchanged. -/
def tracedGet {κ : Type} (cr : CacheRepoM κ) (k : κ) (key : String) :
    Except String String × List SpanEvent :=
  let pre := [SpanEvent.startSp "redis.get", .tagS "db.type" "redis",
    .tagS "db.operation" "GET", .tagS "cache.key" key]
  match cr.get k key with
  | .error e =>
    (.error e, pre ++ [.tagB "cache.hit" false, .tagB "cache.success" true, .finishSp])
  | .ok v =>
    (.ok v, pre ++ [.tagB "cache.hit" true, .tagB "cache.success" true, .finishSp])

/-- `CacheRepositoryTracer.Delete`. -/
def tracedDelete {κ : Type} (cr : CacheRepoM κ) (k : κ) (key : String) :
    Except String κ × List SpanEvent :=
  let pre := [SpanEvent.startSp "redis.delete", .tagS "db.type" "redis",
    .tagS "db.operation" "DELETE", .tagS "cache.key" key]
  match cr.delete k key with
  | .error e =>
    (.error e, pre ++ [.tagB "error" true, .tagS "error.msg" e,
      .tagB "cache.success" false, .finishSp])
  | .ok k' => (.ok k', pre ++ [.tagB "cache.success" true, .finishSp])

/-- C4: for every wrapped repository and every input, each of the six
tracing-decorated operations returns exactly the result (value or error) of
the bare operation — the decorator is a pure observability side-channel. -/
theorem tracer_preserves_results {σ κ : Type} (ur : UserRepoM σ) (cr : CacheRepoM κ) :
    (∀ s u, (tracedCreate ur s u).1 = ur.create s u) ∧
    (∀ s id, (tracedFindByID ur s id).1 = ur.findByID s id) ∧
    (∀ s, (tracedFindAll ur s).1 = ur.findAll s) ∧
    (∀ k key v ttl, (tracedSet cr k key v ttl).1 = cr.set k key v) ∧
    (∀ k key, (tracedGet cr k key).1 = cr.get k key) ∧
    (∀ k key, (tracedDelete cr k key).1 = cr.delete k key) := by
  refine ⟨?_, ?_, ?_, ?_, ?_, ?_⟩
  · intro s u
    cases h : ur.create s u with
    | error e => simp [tracedCreate, h]
    | ok p =>
      cases p with
      | mk u' s' => simp [tracedCreate, h]
  · intro s id
    cases h : ur.findByID s id <;> simp [tracedFindByID, h]
  · intro s
    cases h : ur.findAll s <;> simp [tracedFindAll, h]
  · intro k key v ttl
    cases h : cr.set k key v <;> simp [tracedSet, h]
  · intro k key
    cases h : cr.get k key <;> simp [tracedGet, h]
  · intro k key
    cases h : cr.delete k key <;> simp [tracedDelete, h]

/-- The five middlewares registered by `router.Setup`
(`internal/presentation/router/router.go`). -/
inductive Mw where
  | loggerMw
  | repoLocatorMw
  | tracingMw
  | recoveryMw
  | corsMw
deriving DecidableEq, Repr

/-- The middleware registration order of `router.Setup`: Echo applies
`e.Use` middlewares in registration order (the first registered is
outermost), so this list is the outermost-first chain; the route handler
sits inside the last element.  The logger and locator middlewares are
skipped when the corresponding argument is nil. -/
def setupMiddlewares (hasLogger hasLocator : Bool) : List Mw :=
  (if hasLogger then [Mw.loggerMw] else []) ++
    (if hasLocator then [Mw.repoLocatorMw] else []) ++
    [Mw.tracingMw, Mw.recoveryMw, Mw.corsMw]

/-- Modelled from the spec: the outermost-first middleware order the spec
requires — tracing-span-root, panic recovery, logger injection,
repository-locator injection, CORS (then the route handler). -/
def specRequiredOrder : List Mw :=
  [Mw.tracingMw, Mw.recoveryMw, Mw.loggerMw, Mw.repoLocatorMw, Mw.corsMw]

/-- C2 counterexample: with both the logger and the locator supplied, the
registered chain differs from the spec's required order, and the logger
middleware sits outside (before) the recovery middleware, so recovery does
not wrap logger injection. -/
theorem setupMiddlewares_ne_specRequiredOrder :
    setupMiddlewares true true ≠ specRequiredOrder ∧
      List.indexOf Mw.loggerMw (setupMiddlewares true true) <
        List.indexOf Mw.recoveryMw (setupMiddlewares true true) ∧
      List.indexOf Mw.repoLocatorMw (setupMiddlewares true true) <
        List.indexOf Mw.recoveryMw (setupMiddlewares true true) := by
  decide

/-- C2 (amended): the chain is registered outermost-first as logger
injection, repository-locator injection, tracing, panic recovery, CORS,
then the route handler; recovery wraps only CORS and the handler tree
(tracing wraps recovery, so the recovery span lookup finds a live span),
and when logger or locator is nil their middlewares are simply omitted. -/
theorem setupMiddlewares_actual_order :
    setupMiddlewares true true =
      [Mw.loggerMw, Mw.repoLocatorMw, Mw.tracingMw, Mw.recoveryMw, Mw.corsMw] ∧
      setupMiddlewares false false = [Mw.tracingMw, Mw.recoveryMw, Mw.corsMw] ∧
      List.indexOf Mw.tracingMw (setupMiddlewares true true) <
        List.indexOf Mw.recoveryMw (setupMiddlewares true true) ∧
      List.indexOf Mw.recoveryMw (setupMiddlewares true true) <
        List.indexOf Mw.corsMw (setupMiddlewares true true) := by
  decide

/-- The trace/span identifiers of a live span, as formatted strings. -/
structure SpanIds where
  traceId : String
  spanId : String
deriving DecidableEq, Repr

/-- A Go panic value: a string, an error, or a struct
(`recover()` returns `interface{}`). -/
inductive PanicValue where
  | strV (s : String)
  | errV (e : String)
  | structV (tag : String)
deriving DecidableEq, Repr

/-- How the inner handler chain finishes: a normal return (with an optional
returned error) or an escaping panic. -/
inductive InnerOutcome where
  | completed (err : Option String)
  | panics (v : PanicValue)
deriving DecidableEq, Repr

/-- A structured log record emitted by the recovery middleware. -/
structure LogEntry where
  level : String
  message : String
  panicValue : Option PanicValue
  ddTraceId : Option String
  ddSpanId : Option String
deriving DecidableEq, Repr

/-- A JSON value, enough to model the response bodies at issue. -/
inductive JsonV where
  | strJ (s : String)
  | objJ (fields : List (String × JsonV))

/-- The fixed body the recovery middleware writes:
`map[string]string{"error": "Internal Server Error"}`. -/
def internalErrorBody : JsonV := .objJ [("error", .strJ "Internal Server Error")]

/-- The trace/span ids captured before the inner handler is invoked
(`tracer.SpanFromContext` then `FormatUint`); empty strings when no span is
in the request context. -/
def captureIds (preSpan : Option SpanIds) : String × String :=
  match preSpan with
  | some sp => (sp.traceId, sp.spanId)
  | none => ("", "")

/-- The result of one request through the recovery middleware: responses
written by the middleware itself, log records it emitted, and the error
value it returned to the framework. -/
structure RecoveryResult where
  responses : List (Nat × JsonV)
  logs : List LogEntry
  returned : Option String

/-- The single error log record the recovery middleware emits on a panic:
the captured ids are attached only when both are nonempty. -/
def panicLogEntry (v : PanicValue) (tid sid : String) : LogEntry :=
  { level := "error"
    message := "Panic recovered"
    panicValue := some v
    ddTraceId := if tid ≠ "" ∧ sid ≠ "" then some tid else none
    ddSpanId := if tid ≠ "" ∧ sid ≠ "" then some sid else none }

/-- `middleware.EchoRecoveryMiddleware`
(`internal/presentation/middleware/echo_recovery.go`): capture the
trace/span ids before invoking the inner chain; on a normal return, pass
the result through untouched; on a panic, emit exactly one error log (the
captured ids are attached when both are nonempty) and write exactly one
500 response with the fixed JSON body. -/
def echoRecovery (preSpan : Option SpanIds) (inner : InnerOutcome) : RecoveryResult :=
  let ids := captureIds preSpan
  match inner with
  | .completed err => { responses := [], logs := [], returned := err }
  | .panics v =>
    { responses := [(500, internalErrorBody)]
      logs := [panicLogEntry v ids.1 ids.2]
      returned := none }

/-- The JSON member names a serialized `response.ProblemDetail` always
carries (its non-omitempty fields). -/
def problemDetailKeys : List String := ["type", "title", "status", "detail", "instance"]

/-- Whether a JSON body has the shape of a serialized ProblemDetail: an
object carrying every mandatory ProblemDetail member. -/
def isProblemDetailShape (j : JsonV) : Bool :=
  match j with
  | .objJ fields => problemDetailKeys.all (fun k => fields.any (fun p => p.1 = k))
  | _ => false

/-- C1 counterexample: for a handler panicking with the string "boom" under
a live span, the recovery middleware writes its one 500 response with the
fixed `error: Internal Server Error` object — which is not a well-formed
ProblemDetail body (it lacks every mandatory ProblemDetail member). -/
theorem recovery_body_not_problemDetail :
    (echoRecovery (some ⟨"1", "2"⟩) (.panics (.strV "boom"))).responses =
      [(500, internalErrorBody)] ∧
    isProblemDetailShape internalErrorBody = false := by
  constructor
  · rfl
  · rfl

/-- C1 (amended): for any panic value (string, error, or struct) and any
captured nonempty trace/span ids, the recovery middleware writes exactly
one 500 response, whose body is the fixed `error: Internal Server Error`
JSON object (not a ProblemDetail), and emits exactly one error log entry
carrying the trace/span ids captured before the inner handler was
invoked. -/
theorem recovery_single_500_single_log (tid sid : String) (v : PanicValue)
    (h1 : tid ≠ "") (h2 : sid ≠ "") :
    (echoRecovery (some ⟨tid, sid⟩) (.panics v)).responses =
      [(500, internalErrorBody)] ∧
    (echoRecovery (some ⟨tid, sid⟩) (.panics v)).logs =
      [⟨"error", "Panic recovered", some v, some tid, some sid⟩] ∧
    (echoRecovery (some ⟨tid, sid⟩) (.panics v)).returned = none := by
  refine ⟨rfl, ?_, rfl⟩
  simp [echoRecovery, captureIds, panicLogEntry, h1, h2]

/-- C1 witness: panic value "boom" under captured ids ("1", "2"). -/
theorem recovery_single_500_single_log_witness :
    ("1" : String) ≠ "" ∧ ("2" : String) ≠ "" ∧
      ((echoRecovery (some ⟨"1", "2"⟩) (.panics (.errV "boom"))).responses =
        [(500, internalErrorBody)] ∧
      (echoRecovery (some ⟨"1", "2"⟩) (.panics (.errV "boom"))).logs =
        [⟨"error", "Panic recovered", some (.errV "boom"), some "1", some "2"⟩] ∧
      (echoRecovery (some ⟨"1", "2"⟩) (.panics (.errV "boom"))).returned = none) :=
  ⟨by decide, by decide,
    recovery_single_500_single_log "1" "2" (.errV "boom") (by decide) (by decide)⟩

end DatadogTour
